import Mathlib

/-!
Verification of the document-assembly core of the University Document
Generator (files `backend/enhanced_document_generator.py` and
`backend/enhanced_main.py`).

The Python code is shallowly embedded: dictionaries become association
lists, `datetime.now()` and `uuid.uuid4()` become explicit parameters,
the filesystem becomes an explicit state value threaded through the
operations, and Python exceptions become `Except` values.
-/

namespace UniDoc

/-! ## Python string primitives -/

/-- Model of Python `s.replace(a, b)` for single-character patterns
(the source only ever replaces one-character substrings). -/
def replaceChar (s : String) (a b : Char) : String :=
  String.mk (s.data.map (fun c => if c = a then b else c))

/-- Model of Python `s.endswith(t)`: `t` is a suffix of `s`. -/
def pyEndsWith (s t : String) : Bool :=
  t.data.isSuffixOf s.data

/-- Model of Python `s.startswith(t)`: `t` is a leading run of `s`. -/
def pyStartsWith (s t : String) : Bool :=
  t.data.isPrefixOf s.data

/-- Substring scan: does `sub` occur as a contiguous run inside `l`? -/
def containsSubAux (sub : List Char) : List Char → Bool
  | [] => sub.isEmpty
  | c :: t => sub.isPrefixOf (c :: t) || containsSubAux sub t

/-- Model of the Python `sub in s` substring test. -/
def containsSubstr (s sub : String) : Bool :=
  containsSubAux sub.data s.data

/-- Model of Python `str.title` restricted to ASCII: a letter that does
not follow a letter is uppercased, a letter following a letter is
lowercased. -/
def pyTitleAux : List Char → Bool → List Char
  | [], _ => []
  | c :: cs, prevAlpha =>
    (if prevAlpha then c.toLower else c.toUpper) :: pyTitleAux cs c.isAlpha

/-- Model of Python `str.title` (ASCII). -/
def pyTitle (s : String) : String :=
  String.mk (pyTitleAux s.data false)

/-! ## Clock values and `strftime` -/

/-- A wall-clock reading, standing in for Python `datetime.now()`. -/
structure DateTime where
  year : Nat
  month : Nat
  day : Nat
  hour : Nat
  minute : Nat
  second : Nat
deriving DecidableEq, Repr

/-- Decimal digits of a natural number, most significant first
(the decimal rendering used by `strftime` fields). -/
def natToDigits (n : Nat) : List Char :=
  if n < 10 then [Char.ofNat (48 + n)]
  else natToDigits (n / 10) ++ [Char.ofNat (48 + n % 10)]
termination_by n
decreasing_by omega

/-- Left-pad a digit list with zeros to width `w`, as `strftime`
zero-padded fields do. -/
def padZeros (w : Nat) (cs : List Char) : List Char :=
  List.replicate (w - cs.length) '0' ++ cs

/-- A zero-padded decimal field of width `w`. -/
def fmtNat (w n : Nat) : String :=
  String.mk (padZeros w (natToDigits n))

/-- Model of `strftime("%Y%m%d_%H%M%S")`, used for unique filenames. -/
def fmtTimestamp (t : DateTime) : String :=
  fmtNat 4 t.year ++ fmtNat 2 t.month ++ fmtNat 2 t.day ++ "_" ++
    fmtNat 2 t.hour ++ fmtNat 2 t.minute ++ fmtNat 2 t.second

/-- English month names for `strftime("%B")`. -/
def monthName : Nat → String
  | 1 => "January"
  | 2 => "February"
  | 3 => "March"
  | 4 => "April"
  | 5 => "May"
  | 6 => "June"
  | 7 => "July"
  | 8 => "August"
  | 9 => "September"
  | 10 => "October"
  | 11 => "November"
  | 12 => "December"
  | _ => ""

/-- Model of `strftime("%B %d, %Y")`, used in the document footer. -/
def fmtLongDate (t : DateTime) : String :=
  monthName t.month ++ " " ++ fmtNat 2 t.day ++ ", " ++ fmtNat 4 t.year

/-- Model of `strftime("%Y-%m-%d %H:%M:%S")`, used in document metadata. -/
def fmtDateTimeSec (t : DateTime) : String :=
  fmtNat 4 t.year ++ "-" ++ fmtNat 2 t.month ++ "-" ++ fmtNat 2 t.day ++ " " ++
    fmtNat 2 t.hour ++ ":" ++ fmtNat 2 t.minute ++ ":" ++ fmtNat 2 t.second

/-- Model of `datetime.isoformat()` at second precision. -/
def fmtIso (t : DateTime) : String :=
  fmtNat 4 t.year ++ "-" ++ fmtNat 2 t.month ++ "-" ++ fmtNat 2 t.day ++ "T" ++
    fmtNat 2 t.hour ++ ":" ++ fmtNat 2 t.minute ++ ":" ++ fmtNat 2 t.second

/-! ## Reference data tables -/

/-- One entry of `EnhancedDocumentGenerator.universities`. -/
structure UniversityProfile where
  name : String
  address : String
  phone : String
  website : String
  color : String
deriving DecidableEq, Repr

/-- The `"harvard"` entry of `self.universities`. -/
def harvardProfile : UniversityProfile :=
  ⟨"Harvard University", "Cambridge, MA 02138", "(617) 495-1000", "harvard.edu", "8B0000"⟩

/-- The `"stanford"` entry of `self.universities`. -/
def stanfordProfile : UniversityProfile :=
  ⟨"Stanford University", "Stanford, CA 94305", "(650) 723-2300", "stanford.edu", "CC0000"⟩

/-- The `"mit"` entry of `self.universities`. -/
def mitProfile : UniversityProfile :=
  ⟨"Massachusetts Institute of Technology", "Cambridge, MA 02139", "(617) 253-1000",
    "mit.edu", "8A2BE2"⟩

/-- The `"generic"` entry of `self.universities`. -/
def genericProfile : UniversityProfile :=
  ⟨"University", "University Address", "University Phone", "university.edu", "2F4F4F"⟩

/-- The `self.universities` dictionary. -/
def universities : List (String × UniversityProfile) :=
  [("harvard", harvardProfile), ("stanford", stanfordProfile),
   ("mit", mitProfile), ("generic", genericProfile)]

/-- One entry of `EnhancedDocumentGenerator.document_templates`. -/
structure DocumentTemplate where
  title : String
  template : String
deriving DecidableEq, Repr

/-- The `"bonafide"` entry of `self.document_templates`. -/
def tmplBonafide : DocumentTemplate :=
  ⟨"BONAFIDE CERTIFICATE",
   "This is to certify that {student_name}, Roll No: {roll_number}, is a bonafide student of this institution. He/She has been studying in this institution since {admission_date} in the {course} program in the Department of {department}. This certificate is issued for the purpose of {purpose}."⟩

/-- The `"noc"` entry of `self.document_templates`. -/
def tmplNoc : DocumentTemplate :=
  ⟨"NO OBJECTION CERTIFICATE",
   "This is to certify that we have no objection to {student_name}, Roll No: {roll_number}, a student of {course} program in the Department of {department}, for {purpose}. The student is in good academic standing and has no disciplinary issues."⟩

/-- The `"character"` entry of `self.document_templates`. -/
def tmplCharacter : DocumentTemplate :=
  ⟨"CHARACTER CERTIFICATE",
   "This is to certify that {student_name}, Roll No: {roll_number}, is a student of {course} program in the Department of {department}. During his/her stay in this institution, his/her character and conduct have been found to be satisfactory. This certificate is issued for {purpose}."⟩

/-- The `"transfer"` entry of `self.document_templates`. -/
def tmplTransfer : DocumentTemplate :=
  ⟨"TRANSFER CERTIFICATE",
   "This is to certify that {student_name}, Roll No: {roll_number}, was a student of this institution from {admission_date} studying {course} in the Department of {department}. He/She is now seeking transfer for {purpose}. His/Her character and conduct during the stay were satisfactory."⟩

/-- The `"fee_structure"` entry of `self.document_templates`. -/
def tmplFeeStructure : DocumentTemplate :=
  ⟨"FEE STRUCTURE LETTER",
   "This letter provides the official fee structure for {student_name}, Roll No: {roll_number}, enrolled in {course} program in the Department of {department}. This information is provided for {purpose}. Please contact the finance office for detailed fee breakdown."⟩

/-- The `"transcript"` entry of `self.document_templates`. -/
def tmplTranscript : DocumentTemplate :=
  ⟨"ACADEMIC TRANSCRIPT REQUEST",
   "This acknowledges the request for official academic transcripts for {student_name}, Roll No: {roll_number}, enrolled in {course} program in the Department of {department}. The transcripts are requested for {purpose}. Official transcripts will be processed within 5-7 business days."⟩

/-- The `self.document_templates` dictionary. -/
def document_templates : List (String × DocumentTemplate) :=
  [("bonafide", tmplBonafide), ("noc", tmplNoc), ("character", tmplCharacter),
   ("transfer", tmplTransfer), ("fee_structure", tmplFeeStructure),
   ("transcript", tmplTranscript)]

/-! ## Python errors -/

/-- The exceptions the embedded code can raise. -/
inductive PyError where
  | valueError (msg : String)
  | keyError (key : String)
deriving DecidableEq, Repr

/-- Model of Python `str(e)` for the two exception kinds (Python renders
a KeyError argument wrapped in quote characters; the quotes are elided
here). -/
def pyStrErr : PyError → String
  | .valueError m => m
  | .keyError k => k

/-- Model of a Python dictionary access `d[key]` on a dictionary whose
slot for `key` is `v`: a missing key raises `KeyError`. -/
def dictGet (v : Option String) (key : String) : Except PyError String :=
  match v with
  | some s => Except.ok s
  | none => Except.error (PyError.keyError key)

/-! ## Python `str.format` -/

/-- One piece of a parsed format string: a literal run or a named
placeholder. -/
inductive FmtItem where
  | lit (s : String)
  | field (name : String)
deriving DecidableEq, Repr

/-- Scanner state for format-string parsing: accumulated items (in
reverse), the current buffer (in reverse), and whether the scanner is
inside a replacement field. -/
structure PFmtState where
  items : List FmtItem
  buf : List Char
  inField : Bool

/-- Flush the pending literal buffer into the item list. -/
def flushLit (st : PFmtState) : List FmtItem :=
  if st.buf.isEmpty then st.items
  else FmtItem.lit (String.mk st.buf.reverse) :: st.items

/-- One scanner step of format-string parsing.  A brace inside a field
name and an unmatched closing brace are format errors, as in Python. -/
def pstep (st : PFmtState) (c : Char) : Option PFmtState :=
  if st.inField then
    if c = '}' then
      some ⟨FmtItem.field (String.mk st.buf.reverse) :: st.items, [], false⟩
    else if c = '{' then none
    else some ⟨st.items, c :: st.buf, true⟩
  else
    if c = '{' then some ⟨flushLit st, [], true⟩
    else if c = '}' then none
    else some ⟨st.items, c :: st.buf, false⟩

/-- Parse a format string into literal runs and named placeholders.
Brace escapes and format specs are not modelled; the templates in the
source contain neither. -/
def parseFmt (s : String) : Option (List FmtItem) :=
  match s.data.foldlM pstep ⟨[], [], false⟩ with
  | some st => if st.inField then none else some (flushLit st).reverse
  | none => none

/-- Substitute parsed format items against keyword arguments; an
unknown placeholder name raises `KeyError`, exactly as `str.format`
does. Substituted values are not rescanned (single-pass, as in
Python). -/
def renderItems : List FmtItem → List (String × String) → Except PyError String
  | [], _ => Except.ok ""
  | FmtItem.lit s :: rest, fields =>
    (renderItems rest fields).map (fun t => s ++ t)
  | FmtItem.field n :: rest, fields =>
    match List.lookup n fields with
    | some v => (renderItems rest fields).map (fun t => v ++ t)
    | none => Except.error (PyError.keyError n)

/-- Model of Python `s.format(**fields)` with keyword arguments. -/
def pyFormat (s : String) (fields : List (String × String)) : Except PyError String :=
  match parseFmt s with
  | some items => renderItems items fields
  | none => Except.error (PyError.valueError "invalid format string")

/-- The keyword arguments passed to `template.format(...)` in
`generate_document`, in source order. -/
def renderFields (fn rn c d ad p : String) : List (String × String) :=
  [("student_name", fn), ("roll_number", rn), ("course", c), ("department", d),
   ("admission_date", ad), ("purpose", p)]

/-- Parsed form of the bonafide template. -/
def bonafideItems : List FmtItem :=
  [FmtItem.lit "This is to certify that ", FmtItem.field "student_name",
   FmtItem.lit ", Roll No: ", FmtItem.field "roll_number",
   FmtItem.lit ", is a bonafide student of this institution. He/She has been studying in this institution since ",
   FmtItem.field "admission_date", FmtItem.lit " in the ", FmtItem.field "course",
   FmtItem.lit " program in the Department of ", FmtItem.field "department",
   FmtItem.lit ". This certificate is issued for the purpose of ",
   FmtItem.field "purpose", FmtItem.lit "."]

/-- Parsed form of the no-objection template. -/
def nocItems : List FmtItem :=
  [FmtItem.lit "This is to certify that we have no objection to ", FmtItem.field "student_name",
   FmtItem.lit ", Roll No: ", FmtItem.field "roll_number",
   FmtItem.lit ", a student of ", FmtItem.field "course",
   FmtItem.lit " program in the Department of ", FmtItem.field "department",
   FmtItem.lit ", for ", FmtItem.field "purpose",
   FmtItem.lit ". The student is in good academic standing and has no disciplinary issues."]

/-- Parsed form of the character-certificate template. -/
def characterItems : List FmtItem :=
  [FmtItem.lit "This is to certify that ", FmtItem.field "student_name",
   FmtItem.lit ", Roll No: ", FmtItem.field "roll_number",
   FmtItem.lit ", is a student of ", FmtItem.field "course",
   FmtItem.lit " program in the Department of ", FmtItem.field "department",
   FmtItem.lit ". During his/her stay in this institution, his/her character and conduct have been found to be satisfactory. This certificate is issued for ",
   FmtItem.field "purpose", FmtItem.lit "."]

/-- Parsed form of the transfer-certificate template. -/
def transferItems : List FmtItem :=
  [FmtItem.lit "This is to certify that ", FmtItem.field "student_name",
   FmtItem.lit ", Roll No: ", FmtItem.field "roll_number",
   FmtItem.lit ", was a student of this institution from ", FmtItem.field "admission_date",
   FmtItem.lit " studying ", FmtItem.field "course",
   FmtItem.lit " in the Department of ", FmtItem.field "department",
   FmtItem.lit ". He/She is now seeking transfer for ", FmtItem.field "purpose",
   FmtItem.lit ". His/Her character and conduct during the stay were satisfactory."]

/-- Parsed form of the fee-structure template. -/
def feeStructureItems : List FmtItem :=
  [FmtItem.lit "This letter provides the official fee structure for ", FmtItem.field "student_name",
   FmtItem.lit ", Roll No: ", FmtItem.field "roll_number",
   FmtItem.lit ", enrolled in ", FmtItem.field "course",
   FmtItem.lit " program in the Department of ", FmtItem.field "department",
   FmtItem.lit ". This information is provided for ", FmtItem.field "purpose",
   FmtItem.lit ". Please contact the finance office for detailed fee breakdown."]

/-- Parsed form of the transcript-request template. -/
def transcriptItems : List FmtItem :=
  [FmtItem.lit "This acknowledges the request for official academic transcripts for ",
   FmtItem.field "student_name",
   FmtItem.lit ", Roll No: ", FmtItem.field "roll_number",
   FmtItem.lit ", enrolled in ", FmtItem.field "course",
   FmtItem.lit " program in the Department of ", FmtItem.field "department",
   FmtItem.lit ". The transcripts are requested for ", FmtItem.field "purpose",
   FmtItem.lit ". Official transcripts will be processed within 5-7 business days."]

/-! ## Student data and the generated document -/

/-- The student dictionary passed to the generator.  Each slot is
optional, modelling a Python dict that may lack the key (access to a
missing slot raises `KeyError`). -/
structure StudentData where
  student_name : Option String
  roll_number : Option String
  course : Option String
  department : Option String
  admission_date : Option String
  purpose : Option String
deriving DecidableEq, Repr

/-- The rendered artifact: the text content placed in each visual block
by `generate_document`, plus the core-properties metadata.  Visual
attributes (fonts, sizes, alignment) carry no data and are omitted. -/
structure GeneratedDocument where
  watermark : String
  logo_placeholder : String
  header_name : String
  header_subtitle : String
  header_contact : String
  separator_rule : String
  title : String
  body : String
  footer_date : String
  footer_place : String
  signature_rule : String
  registrar : String
  seal_text : String
  meta_title : String
  meta_subject : String
  meta_author : String
  meta_comments : String
deriving DecidableEq, Repr

/-! ## Filename generation -/

/-- Model of `EnhancedDocumentGenerator.generate_unique_filename`.
The wall clock and the UUID string (Python `str(uuid.uuid4())`, a
36-character hex-and-dash string) are explicit parameters. -/
def generate_unique_filename (now : DateTime) (uuidStr : String)
    (document_type student_name purpose : String) : String :=
  let timestamp := fmtTimestamp now
  let unique_id := String.mk (uuidStr.data.take 8)
  let clean_name := replaceChar (replaceChar student_name ' ' '_') '/' '_'
  let clean_purpose :=
    String.mk ((replaceChar (replaceChar purpose ' ' '_') '/' '_').data.take 20)
  document_type ++ "_" ++ clean_name ++ "_" ++ clean_purpose ++ "_" ++
    timestamp ++ "_" ++ unique_id ++ ".docx"

/-! ## Document generation -/

/-- The block contents `generate_document` adds to the fresh document:
watermark, logo placeholder, header, title, body, footer and core
properties, in the order the source adds them. -/
def assembleDoc (now : DateTime) (u : UniversityProfile) (td : DocumentTemplate)
    (document_type student_name body_text : String) : GeneratedDocument :=
  { watermark := "OFFICIAL DOCUMENT"
    logo_placeholder := "[" ++ u.name ++ " LOGO]"
    header_name := u.name.toUpper
    header_subtitle := "Office of the Registrar"
    header_contact := u.address ++ "\nTel: " ++ u.phone
    separator_rule := String.mk (List.replicate 80 '_')
    title := td.title
    body := body_text
    footer_date := "Date: " ++ fmtLongDate now
    footer_place := "Place: " ++ u.name
    signature_rule := String.mk (List.replicate 40 '_')
    registrar := "Registrar"
    seal_text := u.name
    meta_title := pyTitle document_type ++ " - " ++ student_name
    meta_subject := "University Document: " ++ document_type
    meta_author := "University Registrar Office"
    meta_comments := "Generated for " ++ student_name ++ " on " ++ fmtDateTimeSec now }

/-- Model of `EnhancedDocumentGenerator.generate_document`.  Validates
the two codes, reads the required student fields in source order
(student name first, then the five keyword arguments of `format`),
substitutes the template, and assembles the document blocks together
with the unique filename. -/
def generate_document (now : DateTime) (uuidStr : String)
    (university_code document_type : String) (student_data : StudentData) :
    Except PyError (GeneratedDocument × String) := do
  let university_data ← match List.lookup university_code universities with
    | some u => Except.ok u
    | none =>
      Except.error (PyError.valueError ("Invalid university code: " ++ university_code))
  let template_data ← match List.lookup document_type document_templates with
    | some t => Except.ok t
    | none =>
      Except.error (PyError.valueError ("Invalid document type: " ++ document_type))
  let student_name ← dictGet student_data.student_name "student_name"
  let formatted_name := "Mr./Ms. " ++ student_name
  let roll_number ← dictGet student_data.roll_number "roll_number"
  let course ← dictGet student_data.course "course"
  let department ← dictGet student_data.department "department"
  let admission_date ← dictGet student_data.admission_date "admission_date"
  let purpose ← dictGet student_data.purpose "purpose"
  let body_text ← pyFormat template_data.template
    (renderFields formatted_name roll_number course department admission_date purpose)
  let doc := assembleDoc now university_data template_data document_type student_name body_text
  let filename := generate_unique_filename now uuidStr document_type student_name purpose
  return (doc, filename)

/-! ## Filesystem model and persistence -/

/-- What the model records about a file on disk: the saved document,
its serialized size in bytes and its creation time.  Size and creation
time are environment-supplied at write time (they arise outside the
embedded code, in the docx serializer and the OS). -/
structure FileInfo where
  doc : GeneratedDocument
  size : Nat
  ctime : Nat
deriving DecidableEq, Repr

/-- The filesystem as seen by the code: the set of existing directories
and the files, keyed by (directory, filename). -/
structure FS where
  dirs : List String
  files : List ((String × String) × FileInfo)
deriving DecidableEq, Repr

/-- Model of `os.makedirs(d, exist_ok=True)`: create `d` when absent,
do nothing when it already exists. -/
def makedirs (fs : FS) (d : String) : FS :=
  if fs.dirs.contains d then fs else { fs with dirs := d :: fs.dirs }

/-- Model of `os.path.join` (POSIX, two components), following
`posixpath.join`: an absolute second component discards the first, and
no separator is inserted after an empty or slash-terminated first
component. -/
def joinPath (d f : String) : String :=
  if pyStartsWith f "/" = true then f
  else if d = "" ∨ pyEndsWith d "/" = true then d ++ f
  else d ++ "/" ++ f

/-- Whole-file write (Python `doc.save(path)`): replaces any previous
file under the same key. -/
def fsWrite (fs : FS) (d name : String) (info : FileInfo) : FS :=
  { fs with
    files := ((d, name), info) :: fs.files.filter (fun e => decide (e.1 ≠ (d, name))) }

/-- Model of `os.path.exists` on a file path inside directory `d`. -/
def fsExists (fs : FS) (d name : String) : Bool :=
  fs.files.any (fun e => decide (e.1 = (d, name)))

/-- Model of `os.remove`. -/
def fsRemove (fs : FS) (d name : String) : FS :=
  { fs with files := fs.files.filter (fun e => decide (e.1 ≠ (d, name))) }

/-- Model of `EnhancedDocumentGenerator.save_document`: create the
output directory when absent, write the document, return the joined
path.  `sz` and `ct` are the size and creation time the environment
assigns to the written file. -/
def save_document (fs : FS) (doc : GeneratedDocument) (filename output_dir : String)
    (sz ct : Nat) : String × FS :=
  let fs1 := makedirs fs output_dir
  let file_path := joinPath output_dir filename
  let fs2 := fsWrite fs1 output_dir filename ⟨doc, sz, ct⟩
  (file_path, fs2)

/-- The dictionary returned by `generate_and_save`. -/
structure SaveResult where
  success : Bool
  filename : String
  file_path : String
  download_url : String
  message : String
deriving DecidableEq, Repr

/-- Model of `EnhancedDocumentGenerator.generate_and_save`.  On a
generation failure the exception propagates and the filesystem is
untouched; on success the document is saved and the result dictionary
returned. -/
def generate_and_save (fs : FS) (now : DateTime) (uuidStr : String) (sz ct : Nat)
    (university_code document_type : String) (student_data : StudentData)
    (output_dir : String) : Except PyError SaveResult × FS :=
  match generate_document now uuidStr university_code document_type student_data with
  | Except.error e => (Except.error e, fs)
  | Except.ok (doc, filename) =>
    let (file_path, fs2) := save_document fs doc filename output_dir sz ct
    (Except.ok
      { success := true
        filename := filename
        file_path := file_path
        download_url := "/download/" ++ filename
        message := "Document generated successfully: " ++ filename }, fs2)

/-! ## HTTP layer (`enhanced_main.py`) -/

/-- Model of FastAPI `HTTPException`. -/
structure HTTPException where
  status_code : Nat
  detail : String
deriving DecidableEq, Repr

/-- The pydantic `StudentData` request model: six required strings plus
`year_of_study` (required but unused) and optional contact fields. -/
structure RequestStudentData where
  student_name : String
  roll_number : String
  course : String
  department : String
  year_of_study : String
  admission_date : String
  email : Option String
  phone : Option String
  purpose : String
deriving DecidableEq, Repr

/-- The pydantic `DocumentRequest` request model. -/
structure DocumentRequest where
  university_code : String
  document_type : String
  student_data : RequestStudentData
deriving DecidableEq, Repr

/-- The pydantic `DocumentResponse` response model. -/
structure DocumentResponse where
  success : Bool
  filename : String
  download_url : String
  message : String
  generated_at : String
deriving DecidableEq, Repr

/-- The dictionary built by the `/generate-document` endpoint from the
request: exactly the six required fields, dropping `year_of_study`,
`email` and `phone`. -/
def toGenStudentData (r : RequestStudentData) : StudentData :=
  { student_name := some r.student_name
    roll_number := some r.roll_number
    course := some r.course
    department := some r.department
    admission_date := some r.admission_date
    purpose := some r.purpose }

/-- Model of `str(HTTPException)` as FastAPI renders it. -/
def httpStr (e : HTTPException) : String :=
  toString e.status_code ++ ": " ++ e.detail

/-- Model of the `/generate-document` endpoint.  The route body runs
inside a bare `except Exception` handler with no `except HTTPException`
re-raise, so even its own 400 validation errors are caught and
re-wrapped as 500 errors; generator exceptions are wrapped the same
way. -/
def api_generate_document (fs : FS) (now : DateTime) (uuidStr : String) (sz ct : Nat)
    (req : DocumentRequest) : Except HTTPException DocumentResponse × FS :=
  if (List.lookup req.university_code universities).isNone then
    (Except.error ⟨500, "Error generating document: " ++
      httpStr ⟨400, "Invalid university code: " ++ req.university_code⟩⟩, fs)
  else if (List.lookup req.document_type document_templates).isNone then
    (Except.error ⟨500, "Error generating document: " ++
      httpStr ⟨400, "Invalid document type: " ++ req.document_type⟩⟩, fs)
  else
    let student_data := toGenStudentData req.student_data
    match generate_and_save fs now uuidStr sz ct req.university_code req.document_type
        student_data "generated" with
    | (Except.error e, fs2) =>
      (Except.error ⟨500, "Error generating document: " ++ pyStrErr e⟩, fs2)
    | (Except.ok r, fs2) =>
      (Except.ok
        { success := r.success
          filename := r.filename
          download_url := r.download_url
          message := r.message
          generated_at := fmtIso now }, fs2)

/-- One entry of the `/documents` listing.  `created_at` is the file
creation time; the source renders it as an ISO string, an
order-preserving injective image of the timestamp, modelled here by the
timestamp itself. -/
structure DocEntry where
  filename : String
  size : Nat
  created_at : Nat
  download_url : String
deriving DecidableEq, Repr

/-- Newest-first comparison used by the listing sort
(`documents.sort(key=created_at, reverse=True)`). -/
def newerFirst (a b : DocEntry) : Prop :=
  b.created_at ≤ a.created_at

instance : DecidableRel newerFirst :=
  fun a b => Nat.decLe b.created_at a.created_at

instance : IsTotal DocEntry newerFirst :=
  ⟨fun a b => (Nat.le_total b.created_at a.created_at).elim Or.inl Or.inr⟩

instance : IsTrans DocEntry newerFirst :=
  ⟨fun _ _ _ hab hbc => Nat.le_trans hbc hab⟩

/-- Model of the `/documents` endpoint: an empty answer when the store
directory does not exist, otherwise one entry per `.docx` file in the
directory, sorted newest first. -/
def list_documents (fs : FS) : List DocEntry :=
  if fs.dirs.contains "generated" then
    List.insertionSort newerFirst
      ((fs.files.filter
          (fun e => decide (e.1.1 = "generated") && pyEndsWith e.1.2 ".docx")).map
        (fun e => ⟨e.1.2, e.2.size, e.2.ctime, "/download/" ++ e.1.2⟩))
  else []

/-- Model of the `/documents/{filename}` delete endpoint: 404 when the
file is absent, otherwise remove it and return the success message. -/
def delete_document (fs : FS) (filename : String) :
    Except HTTPException String × FS :=
  if fsExists fs "generated" filename then
    (Except.ok ("Document " ++ filename ++ " deleted successfully"),
      fsRemove fs "generated" filename)
  else
    (Except.error ⟨404, "Document not found"⟩, fs)

/-! ## Projections and concrete fixtures used in statements -/

/-- The body text of a successful generation result. -/
def bodyOf (r : Except PyError (GeneratedDocument × String)) : Option String :=
  match r with
  | Except.ok (doc, _) => some doc.body
  | Except.error _ => none

/-- The title block of a successful generation result. -/
def titleOf (r : Except PyError (GeneratedDocument × String)) : Option String :=
  match r with
  | Except.ok (doc, _) => some doc.title
  | Except.error _ => none

/-- Modelled from the spec: a POSIX absolute path begins with the
path separator. -/
def isAbsolutePath (s : String) : Bool :=
  match s.data with
  | [] => false
  | c :: _ => c = '/'

/-- A concrete clock reading used by concrete instances. -/
def now0 : DateTime := ⟨2025, 3, 4, 9, 5, 7⟩

/-- A concrete UUID string of the standard 36-character shape. -/
def uuid0 : String := "abcd1234-ef56-7890-aaaa-bbbbccccdddd"

/-- An empty filesystem. -/
def fs0 : FS := ⟨[], []⟩

/-- The sample student of the source's example usage. -/
def johnSmith : StudentData :=
  ⟨some "John Smith", some "CS2024001", some "Bachelor of Science (B.Sc.)",
   some "Computer Science", some "2023-08-15", some "Internship application"⟩

/-- The sample student with the `student_name` key removed. -/
def noNameStudent : StudentData :=
  ⟨none, some "CS2024001", some "Bachelor of Science (B.Sc.)",
   some "Computer Science", some "2023-08-15", some "Internship application"⟩

/-- An arbitrary concrete document value. -/
def doc0 : GeneratedDocument :=
  ⟨"", "", "", "", "", "", "", "", "", "", "", "", "", "", "", "", ""⟩

/-- A store holding one `.docx` file and one stray non-docx file. -/
def fsMixed : FS :=
  ⟨["generated"],
   [(("generated", "a.docx"), ⟨doc0, 11, 3⟩),
    (("generated", "notes.txt"), ⟨doc0, 7, 9⟩),
    (("generated", "b.docx"), ⟨doc0, 13, 8⟩)]⟩

/-- A concrete request whose optional fields are populated. -/
def reqStudent1 : RequestStudentData :=
  ⟨"John Smith", "CS2024001", "Bachelor of Science (B.Sc.)", "Computer Science",
   "2nd Year", "2023-08-15", some "john.smith@university.edu", some "+1-555-0123",
   "Internship application"⟩

/-- The same request with different `year_of_study` and the optional
fields absent. -/
def reqStudent2 : RequestStudentData :=
  ⟨"John Smith", "CS2024001", "Bachelor of Science (B.Sc.)", "Computer Science",
   "4th Year", "2023-08-15", none, none, "Internship application"⟩

/-- The save, list, delete round trip of the spec, at given inputs:
the save succeeds, the saved filename is listed, deleting it succeeds
and removes it from the listing, and deleting it again answers 404. -/
def roundTrip (fs : FS) (now : DateTime) (uuidStr : String) (sz ct : Nat)
    (uc dt : String) (sd : StudentData) : Prop :=
  ∃ (r : SaveResult) (fs1 : FS),
    generate_and_save fs now uuidStr sz ct uc dt sd "generated" = (Except.ok r, fs1) ∧
    r.filename ∈ (list_documents fs1).map DocEntry.filename ∧
    ∃ fs2 : FS,
      delete_document fs1 r.filename =
        (Except.ok ("Document " ++ r.filename ++ " deleted successfully"), fs2) ∧
      r.filename ∉ (list_documents fs2).map DocEntry.filename ∧
      (delete_document fs2 r.filename).1 = Except.error ⟨404, "Document not found"⟩

/-! ## Helper lemmas: template parsing and rendering -/

set_option maxRecDepth 8192 in
theorem parseFmt_bonafide : parseFmt tmplBonafide.template = some bonafideItems := by
  rfl

theorem pyFormat_bonafide (fn rn c d ad p : String) :
    pyFormat tmplBonafide.template (renderFields fn rn c d ad p) =
      Except.ok ("This is to certify that " ++ fn ++ ", Roll No: " ++ rn ++
        ", is a bonafide student of this institution. He/She has been studying in this institution since " ++
        ad ++ " in the " ++ c ++ " program in the Department of " ++ d ++
        ". This certificate is issued for the purpose of " ++ p ++ ".") := by
  rw [pyFormat, parseFmt_bonafide]
  simp [bonafideItems, renderItems, renderFields, List.lookup, Except.map,
    ← String.append_assoc]

set_option maxRecDepth 8192 in
theorem parseFmt_noc : parseFmt tmplNoc.template = some nocItems := by
  rfl

theorem pyFormat_noc (fn rn c d ad p : String) :
    pyFormat tmplNoc.template (renderFields fn rn c d ad p) =
      Except.ok ("This is to certify that we have no objection to " ++ fn ++
        ", Roll No: " ++ rn ++ ", a student of " ++ c ++
        " program in the Department of " ++ d ++ ", for " ++ p ++
        ". The student is in good academic standing and has no disciplinary issues.") := by
  rw [pyFormat, parseFmt_noc]
  simp [nocItems, renderItems, renderFields, List.lookup, Except.map,
    ← String.append_assoc]

set_option maxRecDepth 8192 in
theorem parseFmt_character : parseFmt tmplCharacter.template = some characterItems := by
  rfl

theorem pyFormat_character (fn rn c d ad p : String) :
    pyFormat tmplCharacter.template (renderFields fn rn c d ad p) =
      Except.ok ("This is to certify that " ++ fn ++ ", Roll No: " ++ rn ++
        ", is a student of " ++ c ++ " program in the Department of " ++ d ++
        ". During his/her stay in this institution, his/her character and conduct have been found to be satisfactory. This certificate is issued for " ++
        p ++ ".") := by
  rw [pyFormat, parseFmt_character]
  simp [characterItems, renderItems, renderFields, List.lookup, Except.map,
    ← String.append_assoc]

set_option maxRecDepth 8192 in
theorem parseFmt_transfer : parseFmt tmplTransfer.template = some transferItems := by
  rfl

theorem pyFormat_transfer (fn rn c d ad p : String) :
    pyFormat tmplTransfer.template (renderFields fn rn c d ad p) =
      Except.ok ("This is to certify that " ++ fn ++ ", Roll No: " ++ rn ++
        ", was a student of this institution from " ++ ad ++ " studying " ++ c ++
        " in the Department of " ++ d ++ ". He/She is now seeking transfer for " ++ p ++
        ". His/Her character and conduct during the stay were satisfactory.") := by
  rw [pyFormat, parseFmt_transfer]
  simp [transferItems, renderItems, renderFields, List.lookup, Except.map,
    ← String.append_assoc]

set_option maxRecDepth 8192 in
theorem parseFmt_feeStructure : parseFmt tmplFeeStructure.template = some feeStructureItems := by
  rfl

theorem pyFormat_feeStructure (fn rn c d ad p : String) :
    pyFormat tmplFeeStructure.template (renderFields fn rn c d ad p) =
      Except.ok ("This letter provides the official fee structure for " ++ fn ++
        ", Roll No: " ++ rn ++ ", enrolled in " ++ c ++
        " program in the Department of " ++ d ++ ". This information is provided for " ++
        p ++ ". Please contact the finance office for detailed fee breakdown.") := by
  rw [pyFormat, parseFmt_feeStructure]
  simp [feeStructureItems, renderItems, renderFields, List.lookup, Except.map,
    ← String.append_assoc]

set_option maxRecDepth 8192 in
theorem parseFmt_transcript : parseFmt tmplTranscript.template = some transcriptItems := by
  rfl

theorem pyFormat_transcript (fn rn c d ad p : String) :
    pyFormat tmplTranscript.template (renderFields fn rn c d ad p) =
      Except.ok ("This acknowledges the request for official academic transcripts for " ++
        fn ++ ", Roll No: " ++ rn ++ ", enrolled in " ++ c ++
        " program in the Department of " ++ d ++ ". The transcripts are requested for " ++
        p ++ ". Official transcripts will be processed within 5-7 business days.") := by
  rw [pyFormat, parseFmt_transcript]
  simp [transcriptItems, renderItems, renderFields, List.lookup, Except.map,
    ← String.append_assoc]

/-! ## Helper lemmas: reduction of `generate_document` -/

/-- Reduction of `generate_document` on valid codes and complete
student data, in terms of the rendered body. -/
theorem generate_document_eq (now : DateTime) (uuidStr uc dt : String)
    (u : UniversityProfile) (td : DocumentTemplate) (sn rn c d ad p body : String)
    (hu : List.lookup uc universities = some u)
    (ht : List.lookup dt document_templates = some td)
    (hb : pyFormat td.template (renderFields ("Mr./Ms. " ++ sn) rn c d ad p) =
      Except.ok body) :
    generate_document now uuidStr uc dt ⟨some sn, some rn, some c, some d, some ad, some p⟩ =
      Except.ok (assembleDoc now u td dt sn body,
        generate_unique_filename now uuidStr dt sn p) := by
  simp [generate_document, dictGet, hu, ht, hb, bind, Except.bind, Except.map, Functor.map, pure, Except.pure]

/-- Every value in the template table is one of the six named
templates. -/
theorem lookup_templates_cases {dt : String} {td : DocumentTemplate}
    (h : List.lookup dt document_templates = some td) :
    td = tmplBonafide ∨ td = tmplNoc ∨ td = tmplCharacter ∨ td = tmplTransfer ∨
      td = tmplFeeStructure ∨ td = tmplTranscript := by
  simp only [document_templates, List.lookup] at h
  repeat' split at h
  all_goals simp_all

/-- Rendering any of the six templates against the six keyword
arguments succeeds. -/
theorem pyFormat_template_ok {td : DocumentTemplate}
    (h : td = tmplBonafide ∨ td = tmplNoc ∨ td = tmplCharacter ∨ td = tmplTransfer ∨
      td = tmplFeeStructure ∨ td = tmplTranscript) (fn rn c d ad p : String) :
    ∃ body, pyFormat td.template (renderFields fn rn c d ad p) = Except.ok body := by
  rcases h with h | h | h | h | h | h <;> subst h
  · exact ⟨_, pyFormat_bonafide fn rn c d ad p⟩
  · exact ⟨_, pyFormat_noc fn rn c d ad p⟩
  · exact ⟨_, pyFormat_character fn rn c d ad p⟩
  · exact ⟨_, pyFormat_transfer fn rn c d ad p⟩
  · exact ⟨_, pyFormat_feeStructure fn rn c d ad p⟩
  · exact ⟨_, pyFormat_transcript fn rn c d ad p⟩

/-- On valid codes and complete student data, `generate_document`
succeeds and returns the filename built by
`generate_unique_filename`. -/
theorem generate_document_ok (now : DateTime) (uuidStr uc dt : String)
    (u : UniversityProfile) (td : DocumentTemplate) (sn rn c d ad p : String)
    (hu : List.lookup uc universities = some u)
    (ht : List.lookup dt document_templates = some td) :
    ∃ doc, generate_document now uuidStr uc dt
        ⟨some sn, some rn, some c, some d, some ad, some p⟩ =
      Except.ok (doc, generate_unique_filename now uuidStr dt sn p) := by
  obtain ⟨body, hb⟩ :=
    pyFormat_template_ok (lookup_templates_cases ht) ("Mr./Ms. " ++ sn) rn c d ad p
  exact ⟨_, generate_document_eq now uuidStr uc dt u td sn rn c d ad p body hu ht hb⟩

/-- When one of the six required fields is missing, `generate_document`
raises a `KeyError` (independently of which template was selected). -/
theorem generate_document_missing_field (now : DateTime) (uuidStr uc dt : String)
    (u : UniversityProfile) (td : DocumentTemplate) (sd : StudentData)
    (hu : List.lookup uc universities = some u)
    (ht : List.lookup dt document_templates = some td)
    (hmiss : sd.student_name = none ∨ sd.roll_number = none ∨ sd.course = none ∨
      sd.department = none ∨ sd.admission_date = none ∨ sd.purpose = none) :
    ∃ k, generate_document now uuidStr uc dt sd = Except.error (PyError.keyError k) := by
  rcases sd with ⟨osn, orn, oc, od, oad, op⟩
  cases osn with
  | none => exact ⟨"student_name", by simp [generate_document, dictGet, hu, ht, bind, Except.bind, Except.map, Functor.map, pure, Except.pure]⟩
  | some sn =>
    cases orn with
    | none => exact ⟨"roll_number", by simp [generate_document, dictGet, hu, ht, bind, Except.bind, Except.map, Functor.map, pure, Except.pure]⟩
    | some rn =>
      cases oc with
      | none => exact ⟨"course", by simp [generate_document, dictGet, hu, ht, bind, Except.bind, Except.map, Functor.map, pure, Except.pure]⟩
      | some c =>
        cases od with
        | none => exact ⟨"department", by simp [generate_document, dictGet, hu, ht, bind, Except.bind, Except.map, Functor.map, pure, Except.pure]⟩
        | some d =>
          cases oad with
          | none => exact ⟨"admission_date", by simp [generate_document, dictGet, hu, ht, bind, Except.bind, Except.map, Functor.map, pure, Except.pure]⟩
          | some ad =>
            cases op with
            | none => exact ⟨"purpose", by simp [generate_document, dictGet, hu, ht, bind, Except.bind, Except.map, Functor.map, pure, Except.pure]⟩
            | some p => simp at hmiss

/-! ## Helper lemmas: decimal digits and timestamps -/

theorem char_ofNat_digit : ∀ m, m < 10 → (Char.ofNat (48 + m)).isDigit = true := by
  decide

theorem natToDigits_digit (n : Nat) : ∀ c ∈ natToDigits n, c.isDigit = true := by
  induction n using Nat.strong_induction_on with
  | _ n ih =>
    rw [natToDigits]
    split
    next h =>
      intro c hc
      simp only [List.mem_singleton] at hc
      subst hc
      exact char_ofNat_digit n h
    next h =>
      intro c hc
      rcases List.mem_append.mp hc with h1 | h1
      · exact ih (n / 10) (by omega) c h1
      · simp only [List.mem_singleton] at h1
        subst h1
        exact char_ofNat_digit (n % 10) (Nat.mod_lt _ (by omega))

theorem natToDigits_length_le : ∀ (k n : Nat), n < 10 ^ (k + 1) →
    (natToDigits n).length ≤ k + 1 := by
  intro k
  induction k with
  | zero =>
    intro n h
    rw [natToDigits]
    have h10 : n < 10 := by simpa using h
    simp [h10]
  | succ k ih =>
    intro n h
    rw [natToDigits]
    split
    · simp
    · rw [List.length_append, List.length_singleton]
      have hdiv : n / 10 < 10 ^ (k + 1) := by
        apply Nat.div_lt_of_lt_mul
        calc n < 10 ^ (k + 1 + 1) := h
        _ = 10 * 10 ^ (k + 1) := by ring
      have := ih (n / 10) hdiv
      omega

theorem padZeros_length (w : Nat) (cs : List Char) (h : cs.length ≤ w) :
    (padZeros w cs).length = w := by
  simp [padZeros]
  omega

theorem padZeros_digit (w : Nat) (cs : List Char) (h : ∀ c ∈ cs, c.isDigit = true) :
    ∀ c ∈ padZeros w cs, c.isDigit = true := by
  intro c hc
  rcases List.mem_append.mp hc with h1 | h1
  · rw [List.eq_of_mem_replicate h1]
    decide
  · exact h c h1

theorem fmtNat_length (k n : Nat) (h : n < 10 ^ (k + 1)) :
    (fmtNat (k + 1) n).data.length = k + 1 :=
  padZeros_length _ _ (natToDigits_length_le k n h)

theorem fmtNat_digit (w n : Nat) : ∀ c ∈ (fmtNat w n).data, c.isDigit = true :=
  padZeros_digit _ _ (natToDigits_digit n)

/-- Every character of the compact timestamp is a decimal digit or the
underscore separator. -/
theorem fmtTimestamp_chars (t : DateTime) :
    ∀ c ∈ (fmtTimestamp t).data, c.isDigit = true ∨ c = '_' := by
  intro c hc
  simp only [fmtTimestamp, String.data_append, List.mem_append] at hc
  rcases hc with ((((((h | h) | h) | h) | h) | h) | h)
  · exact Or.inl (fmtNat_digit 4 t.year c h)
  · exact Or.inl (fmtNat_digit 2 t.month c h)
  · exact Or.inl (fmtNat_digit 2 t.day c h)
  · simp at h
    exact Or.inr h
  · exact Or.inl (fmtNat_digit 2 t.hour c h)
  · exact Or.inl (fmtNat_digit 2 t.minute c h)
  · exact Or.inl (fmtNat_digit 2 t.second c h)

/-! ## Helper lemmas: sanitization and suffixes -/

/-- Replacing `a` by `b ≠ a` removes every occurrence of `a`. -/
theorem replaceChar_not_mem (s : String) (a b : Char) (hb : b ≠ a) :
    a ∉ (replaceChar s a b).data := by
  intro hmem
  simp only [replaceChar, List.mem_map] at hmem
  obtain ⟨x, _, hxa⟩ := hmem
  by_cases h : x = a
  · rw [if_pos h] at hxa
    exact hb hxa
  · rw [if_neg h] at hxa
    exact h hxa

/-- The two chained `replace` calls of the source act as one pointwise
map sending spaces and forward slashes to underscores. -/
theorem replaceChar_twice (s : String) :
    (replaceChar (replaceChar s ' ' '_') '/' '_').data =
      s.data.map (fun c => if c = ' ' ∨ c = '/' then '_' else c) := by
  simp only [replaceChar, List.map_map]
  congr 1
  funext c
  by_cases h1 : c = ' '
  · subst h1
    simp
  · by_cases h2 : c = '/'
    · subst h2
      simp
    · simp [Function.comp, h1, h2]

/-- A string extended by `t` ends with `t`. -/
theorem pyEndsWith_append (s t : String) : pyEndsWith (s ++ t) t = true := by
  simp only [pyEndsWith, String.data_append, List.isSuffixOf_iff_suffix]
  exact List.suffix_append s.data t.data

/-! ## Claim theorems -/

/-- C1: for every unknown university code, `generate_and_save` fails
with the ValueError naming the university code (the NotFound-style
error) and leaves the store untouched, whatever the document type is —
in particular, when both codes are unknown the university check fails
first; for a known university code and unknown document type it fails
with the ValueError naming the document type, again leaving the store
untouched, so composition, filename generation and persistence never
run. -/
theorem unknown_code_short_circuits (fs : FS) (now : DateTime) (uuidStr : String)
    (sz ct : Nat) (uc dt output_dir : String) (sd : StudentData) :
    (List.lookup uc universities = none →
      generate_and_save fs now uuidStr sz ct uc dt sd output_dir =
        (Except.error (PyError.valueError ("Invalid university code: " ++ uc)), fs)) ∧
    (∀ u : UniversityProfile, List.lookup uc universities = some u →
      List.lookup dt document_templates = none →
      generate_and_save fs now uuidStr sz ct uc dt sd output_dir =
        (Except.error (PyError.valueError ("Invalid document type: " ++ dt)), fs)) := by
  constructor
  · intro h
    simp [generate_and_save, generate_document, h, bind, Except.bind]
  · intro u hu hdt
    simp [generate_and_save, generate_document, hu, hdt, bind, Except.bind]

/-- Witness for C1 at the unknown codes "oxford" and "degree": with
both codes unknown the reported error is the university one, and with a
known university the unknown document type is reported; the store is
unchanged in both cases. -/
theorem unknown_code_short_circuits_witness :
    generate_and_save fs0 now0 uuid0 10 5 "oxford" "degree" johnSmith "generated" =
      (Except.error (PyError.valueError "Invalid university code: oxford"), fs0) ∧
    generate_and_save fs0 now0 uuid0 10 5 "harvard" "degree" johnSmith "generated" =
      (Except.error (PyError.valueError "Invalid document type: degree"), fs0) :=
  ⟨(unknown_code_short_circuits fs0 now0 uuid0 10 5 "oxford" "degree" "generated"
      johnSmith).1 rfl,
   (unknown_code_short_circuits fs0 now0 uuid0 10 5 "harvard" "degree" "generated"
      johnSmith).2 harvardProfile rfl rfl⟩

/-- C2: for every document type, student name and purpose (empty
strings included — the function is total), `generate_unique_filename`
returns exactly
`type_cleanName_cleanPurpose_YYYYMMDD_HHMMSS_id.docx`, where the clean
name and clean purpose replace every space and forward slash with an
underscore, the clean purpose is truncated to at most 20 characters,
the timestamp is an 8-digit date part and a 6-digit time part joined
by an underscore, and the id segment is exactly 8 characters.  The
hypotheses record that the UUID string has its standard length and the
clock fields have the in-range values `strftime` zero-pads to fixed
width. -/
theorem generate_unique_filename_format (now : DateTime) (uuidStr dt name purpose : String)
    (hid : 8 ≤ uuidStr.data.length)
    (hy : now.year < 10000) (hmo : now.month < 100) (hd : now.day < 100)
    (hh : now.hour < 100) (hmi : now.minute < 100) (hs : now.second < 100) :
    ∃ cn cp ts uid : String,
      generate_unique_filename now uuidStr dt name purpose =
        dt ++ "_" ++ cn ++ "_" ++ cp ++ "_" ++ ts ++ "_" ++ uid ++ ".docx" ∧
      cn.data = name.data.map (fun c => if c = ' ' ∨ c = '/' then '_' else c) ∧
      cp.data = (purpose.data.map (fun c => if c = ' ' ∨ c = '/' then '_' else c)).take 20 ∧
      cp.data.length ≤ 20 ∧
      uid.data = uuidStr.data.take 8 ∧
      uid.data.length = 8 ∧
      ∃ dpart tpart : String, ts = dpart ++ "_" ++ tpart ∧
        dpart.data.length = 8 ∧ tpart.data.length = 6 ∧
        (∀ c ∈ dpart.data, c.isDigit = true) ∧ (∀ c ∈ tpart.data, c.isDigit = true) := by
  refine ⟨replaceChar (replaceChar name ' ' '_') '/' '_',
    String.mk ((replaceChar (replaceChar purpose ' ' '_') '/' '_').data.take 20),
    fmtTimestamp now, String.mk (uuidStr.data.take 8), rfl,
    replaceChar_twice name, ?_, ?_, rfl, ?_, ?_⟩
  · rw [replaceChar_twice purpose]
  · simp
  · show (uuidStr.data.take 8).length = 8
    rw [List.length_take]
    omega
  · have hylen : (fmtNat 4 now.year).data.length = 4 :=
      fmtNat_length 3 now.year (by norm_num; omega)
    have hmolen : (fmtNat 2 now.month).data.length = 2 :=
      fmtNat_length 1 now.month (by norm_num; omega)
    have hdlen : (fmtNat 2 now.day).data.length = 2 :=
      fmtNat_length 1 now.day (by norm_num; omega)
    have hhlen : (fmtNat 2 now.hour).data.length = 2 :=
      fmtNat_length 1 now.hour (by norm_num; omega)
    have hmilen : (fmtNat 2 now.minute).data.length = 2 :=
      fmtNat_length 1 now.minute (by norm_num; omega)
    have hslen : (fmtNat 2 now.second).data.length = 2 :=
      fmtNat_length 1 now.second (by norm_num; omega)
    refine ⟨fmtNat 4 now.year ++ fmtNat 2 now.month ++ fmtNat 2 now.day,
      fmtNat 2 now.hour ++ fmtNat 2 now.minute ++ fmtNat 2 now.second,
      by simp [fmtTimestamp, String.append_assoc], ?_, ?_, ?_, ?_⟩
    · simp [String.data_append, hylen, hmolen, hdlen]
    · simp [String.data_append, hhlen, hmilen, hslen]
    · intro c hc
      simp only [String.data_append, List.mem_append] at hc
      rcases hc with (h | h) | h
      · exact fmtNat_digit 4 now.year c h
      · exact fmtNat_digit 2 now.month c h
      · exact fmtNat_digit 2 now.day c h
    · intro c hc
      simp only [String.data_append, List.mem_append] at hc
      rcases hc with (h | h) | h
      · exact fmtNat_digit 2 now.hour c h
      · exact fmtNat_digit 2 now.minute c h
      · exact fmtNat_digit 2 now.second c h

/-- Witness for C2 at the sample inputs, UUID and clock. -/
theorem generate_unique_filename_format_witness :
    ∃ cn cp ts uid : String,
      generate_unique_filename now0 uuid0 "bonafide" "John Smith" "Internship application" =
        "bonafide" ++ "_" ++ cn ++ "_" ++ cp ++ "_" ++ ts ++ "_" ++ uid ++ ".docx" ∧
      cn.data = "John Smith".data.map (fun c => if c = ' ' ∨ c = '/' then '_' else c) ∧
      cp.data =
        ("Internship application".data.map
          (fun c => if c = ' ' ∨ c = '/' then '_' else c)).take 20 ∧
      cp.data.length ≤ 20 ∧
      uid.data = uuid0.data.take 8 ∧
      uid.data.length = 8 ∧
      ∃ dpart tpart : String, ts = dpart ++ "_" ++ tpart ∧
        dpart.data.length = 8 ∧ tpart.data.length = 6 ∧
        (∀ c ∈ dpart.data, c.isDigit = true) ∧ (∀ c ∈ tpart.data, c.isDigit = true) :=
  generate_unique_filename_format now0 uuid0 "bonafide" "John Smith"
    "Internship application" (by decide) (by decide) (by decide) (by decide)
    (by decide) (by decide) (by decide)

/-- C3 counterexample: the claim that the produced filename never
contains a backslash or a ".." sequence is false — sanitization only
replaces spaces and forward slashes, so the student name "a..\b"
puts both a backslash and a dot-dot sequence into the filename. -/
theorem filename_traversal_counterexample :
    containsSubstr (generate_unique_filename now0 uuid0 "bonafide" "a..\\b" "p") "\\" = true ∧
    containsSubstr (generate_unique_filename now0 uuid0 "bonafide" "a..\\b" "p") ".." = true := by
  constructor
  · decide
  · decide

/-- C3 amended: for every student name and purpose the produced
filename contains no forward slash, provided the document-type code and
the UUID string contain none (in the program they are a template key
and a hex-and-dash string); backslashes and dot sequences are not
removed. -/
theorem filename_no_forward_slash (now : DateTime) (uuidStr dt name purpose : String)
    (hdt : '/' ∉ dt.data) (hu : '/' ∉ uuidStr.data) :
    '/' ∉ (generate_unique_filename now uuidStr dt name purpose).data := by
  intro hmem
  simp only [generate_unique_filename, String.data_append, List.mem_append] at hmem
  rcases hmem with ((((((((h | h) | h) | h) | h) | h) | h) | h) | h) | h
  · exact hdt h
  · simp at h
  · exact replaceChar_not_mem (replaceChar name ' ' '_') '/' '_' (by decide) h
  · simp at h
  · exact replaceChar_not_mem (replaceChar purpose ' ' '_') '/' '_' (by decide)
      (List.take_subset 20 _ h)
  · simp at h
  · rcases fmtTimestamp_chars now '/' h with hdig | hus
    · simp at hdig
    · simp at hus
  · simp at h
  · exact hu (List.take_subset 8 _ h)
  · simp at h

/-- Witness for C3 amended: a name with a space and a purpose with a
slash still yield a slash-free filename. -/
theorem filename_no_forward_slash_witness :
    '/' ∉ (generate_unique_filename now0 uuid0 "bonafide" "John Smith" "c/d").data :=
  filename_no_forward_slash now0 uuid0 "bonafide" "John Smith" "c/d"
    (by decide) (by decide)

/-- C5: for university code "harvard", document type "bonafide" and the
sample John Smith record, the rendered body contains the literal
substrings "Mr./Ms. John Smith", "Roll No: CS2024001" and
"Internship application", and the title block reads
"BONAFIDE CERTIFICATE". -/
theorem harvard_bonafide_example :
    containsSubstr
      ((bodyOf (generate_document now0 uuid0 "harvard" "bonafide" johnSmith)).getD "")
      "Mr./Ms. John Smith" = true ∧
    containsSubstr
      ((bodyOf (generate_document now0 uuid0 "harvard" "bonafide" johnSmith)).getD "")
      "Roll No: CS2024001" = true ∧
    containsSubstr
      ((bodyOf (generate_document now0 uuid0 "harvard" "bonafide" johnSmith)).getD "")
      "Internship application" = true ∧
    titleOf (generate_document now0 uuid0 "harvard" "bonafide" johnSmith) =
      some "BONAFIDE CERTIFICATE" := by
  refine ⟨?_, ?_, ?_, ?_⟩ <;> set_option maxRecDepth 100000 in decide

/-- C7 counterexample: the claim that `save_document` returns the
absolute path of the written artifact is false — with the default
relative base directory "generated" the returned path is the relative
"generated/file.docx", which does not begin with the path separator. -/
theorem save_document_relative_path_counterexample :
    (save_document fs0 doc0 "file.docx" "generated" 10 5).1 = "generated/file.docx" ∧
    isAbsolutePath (save_document fs0 doc0 "file.docx" "generated" 10 5).1 = false := by
  constructor
  · rfl
  · rfl

/-- C7 amended: for every document, filename and base directory,
`save_document` creates the base directory if it is absent (creation is
idempotent), writes the document there, and returns the path
`os.path.join(baseDirectory, filename)`; for the inputs the program
actually passes — a filename that is not absolute and a nonempty base
directory not ending in a separator — that path is the plain
`baseDirectory/filename` concatenation, relative whenever the base
directory is relative, not an absolute path. -/
theorem save_document_contract (fs : FS) (doc : GeneratedDocument)
    (filename output_dir : String) (sz ct : Nat) :
    (save_document fs doc filename output_dir sz ct).1 = joinPath output_dir filename ∧
    (save_document fs doc filename output_dir sz ct).2.dirs.contains output_dir = true ∧
    ((output_dir, filename), (⟨doc, sz, ct⟩ : FileInfo)) ∈
      (save_document fs doc filename output_dir sz ct).2.files ∧
    makedirs (makedirs fs output_dir) output_dir = makedirs fs output_dir ∧
    (pyStartsWith filename "/" = false → output_dir ≠ "" →
      pyEndsWith output_dir "/" = false →
      joinPath output_dir filename = output_dir ++ "/" ++ filename) := by
  refine ⟨rfl, ?_, ?_, ?_, ?_⟩
  · show (makedirs fs output_dir).dirs.contains output_dir = true
    rw [makedirs]
    split
    next h => exact h
    next h => simp
  · exact List.mem_cons_self _ _
  · by_cases hc : output_dir ∈ fs.dirs
    · simp [makedirs, hc]
    · simp [makedirs, hc]
  · intro h1 h2 h3
    simp [joinPath, h1, h2, h3]

/-- Witness for C7 amended, at the default base directory and a
generated-style filename: the returned path is the join, and the join
is the plain relative concatenation. -/
theorem save_document_contract_witness :
    (save_document fs0 doc0 "file.docx" "generated" 10 5).1 =
      joinPath "generated" "file.docx" ∧
    joinPath "generated" "file.docx" = "generated" ++ "/" ++ "file.docx" :=
  ⟨(save_document_contract fs0 doc0 "file.docx" "generated" 10 5).1,
   (save_document_contract fs0 doc0 "file.docx" "generated" 10 5).2.2.2.2
     (by decide) (by decide) (by decide)⟩

/-- C8: the listing is sorted by creation time, newest first, and when
the store directory exists it is a permutation of one record per stored
`.docx` file, each record carrying that file's filename, size in bytes
and creation time. -/
theorem list_documents_sorted_complete (fs : FS) :
    List.Sorted newerFirst (list_documents fs) ∧
    (fs.dirs.contains "generated" = true →
      (list_documents fs).Perm
        ((fs.files.filter
            (fun e => decide (e.1.1 = "generated") && pyEndsWith e.1.2 ".docx")).map
          (fun e => ⟨e.1.2, e.2.size, e.2.ctime, "/download/" ++ e.1.2⟩))) := by
  constructor
  · rw [list_documents]
    split
    · exact List.sorted_insertionSort newerFirst _
    · exact List.sorted_nil
  · intro h
    rw [list_documents, if_pos h]
    exact List.perm_insertionSort newerFirst _

/-- Witness for C8 at a store with three files: the listing is sorted
newest first and is a permutation of the two mapped `.docx` records. -/
theorem list_documents_sorted_complete_witness :
    List.Sorted newerFirst (list_documents fsMixed) ∧
    (list_documents fsMixed).Perm
      ((fsMixed.files.filter
          (fun e => decide (e.1.1 = "generated") && pyEndsWith e.1.2 ".docx")).map
        (fun e => ⟨e.1.2, e.2.size, e.2.ctime, "/download/" ++ e.1.2⟩)) :=
  ⟨(list_documents_sorted_complete fsMixed).1,
   (list_documents_sorted_complete fsMixed).2 (by decide)⟩

/-- C9: two generation requests agreeing on university code, document
type and the six required student fields, but differing arbitrarily in
`email`, `phone` and `year_of_study`, produce identical generation
results (document content and filename) and identical endpoint
responses, holding the clock, UUID and file metadata fixed: the
optional fields have no influence on rendering. -/
theorem optional_fields_no_influence (fs : FS) (now : DateTime) (uuidStr : String)
    (sz ct : Nat) (uc dt : String) (s1 s2 : RequestStudentData)
    (h1 : s1.student_name = s2.student_name) (h2 : s1.roll_number = s2.roll_number)
    (h3 : s1.course = s2.course) (h4 : s1.department = s2.department)
    (h5 : s1.admission_date = s2.admission_date) (h6 : s1.purpose = s2.purpose) :
    generate_document now uuidStr uc dt (toGenStudentData s1) =
      generate_document now uuidStr uc dt (toGenStudentData s2) ∧
    api_generate_document fs now uuidStr sz ct ⟨uc, dt, s1⟩ =
      api_generate_document fs now uuidStr sz ct ⟨uc, dt, s2⟩ := by
  have hsd : toGenStudentData s1 = toGenStudentData s2 := by
    simp [toGenStudentData, h1, h2, h3, h4, h5, h6]
  constructor
  · rw [hsd]
  · simp only [api_generate_document, hsd]

/-- Witness for C9: two concrete requests differing in year of study,
email and phone give the same generation result and response. -/
theorem optional_fields_no_influence_witness :
    generate_document now0 uuid0 "harvard" "bonafide" (toGenStudentData reqStudent1) =
      generate_document now0 uuid0 "harvard" "bonafide" (toGenStudentData reqStudent2) ∧
    api_generate_document fs0 now0 uuid0 10 5 ⟨"harvard", "bonafide", reqStudent1⟩ =
      api_generate_document fs0 now0 uuid0 10 5 ⟨"harvard", "bonafide", reqStudent2⟩ :=
  optional_fields_no_influence fs0 now0 uuid0 10 5 "harvard" "bonafide"
    reqStudent1 reqStudent2 rfl rfl rfl rfl rfl rfl

/-- C10: every entry of the listing has a filename ending in ".docx";
a stored file not ending in ".docx" never appears in the listing; and
every filename produced by `generate_unique_filename` ends in ".docx",
so every saved artifact is listable. -/
theorem listing_docx_filter (fs : FS) :
    (∀ e ∈ list_documents fs, pyEndsWith e.filename ".docx" = true) ∧
    (∀ (k : String × String) (info : FileInfo), (k, info) ∈ fs.files →
      k.1 = "generated" → pyEndsWith k.2 ".docx" = false →
      k.2 ∉ (list_documents fs).map DocEntry.filename) ∧
    (∀ (now : DateTime) (uuidStr dt n p : String),
      pyEndsWith (generate_unique_filename now uuidStr dt n p) ".docx" = true) := by
  have h1 : ∀ e ∈ list_documents fs, pyEndsWith e.filename ".docx" = true := by
    intro e he
    rw [list_documents] at he
    split at he
    · rw [List.mem_insertionSort] at he
      obtain ⟨f, hf, rfl⟩ := List.mem_map.mp he
      have hc := (List.mem_filter.mp hf).2
      simp only [Bool.and_eq_true, decide_eq_true_eq] at hc
      exact hc.2
    · simp at he
  refine ⟨h1, ?_, ?_⟩
  · intro k info _ _ hfalse hmem
    obtain ⟨e, he, heq⟩ := List.mem_map.mp hmem
    rw [← heq] at hfalse
    simp [h1 e he] at hfalse
  · intro now uuidStr dt n p
    simp only [generate_unique_filename]
    exact pyEndsWith_append _ _

/-- Witness for C10: in the mixed store the stray "notes.txt" is not
listed, and a concrete generated filename ends in ".docx". -/
theorem listing_docx_filter_witness :
    "notes.txt" ∉ (list_documents fsMixed).map DocEntry.filename ∧
    pyEndsWith (generate_unique_filename now0 uuid0 "bonafide" "John Smith" "x")
      ".docx" = true :=
  ⟨(listing_docx_filter fsMixed).2.1 ("generated", "notes.txt") ⟨doc0, 7, 9⟩
      (by decide) rfl (by decide),
   (listing_docx_filter fsMixed).2.2 now0 uuid0 "bonafide" "John Smith" "x"⟩

/-- C4: for every template of the table and every student record
supplying all six required fields, composition succeeds and substitutes
every placeholder of the template body with the corresponding field,
the student name being prefixed with the honorific "Mr./Ms. " before
substitution (the six explicit body equations below); and whenever a
required field is missing, rendering fails with a KeyError (the
RenderError of the spec), for every template of the table. -/
theorem compose_substitutes_required_fields (now : DateTime) (uuidStr uc : String)
    (u : UniversityProfile) (hu : List.lookup uc universities = some u) :
    (∀ sn rn c d ad p : String,
      bodyOf (generate_document now uuidStr uc "bonafide"
          ⟨some sn, some rn, some c, some d, some ad, some p⟩) =
        some ("This is to certify that Mr./Ms. " ++ sn ++ ", Roll No: " ++ rn ++
          ", is a bonafide student of this institution. He/She has been studying in this institution since " ++
          ad ++ " in the " ++ c ++ " program in the Department of " ++ d ++
          ". This certificate is issued for the purpose of " ++ p ++ ".") ∧
      bodyOf (generate_document now uuidStr uc "noc"
          ⟨some sn, some rn, some c, some d, some ad, some p⟩) =
        some ("This is to certify that we have no objection to Mr./Ms. " ++ sn ++
          ", Roll No: " ++ rn ++ ", a student of " ++ c ++
          " program in the Department of " ++ d ++ ", for " ++ p ++
          ". The student is in good academic standing and has no disciplinary issues.") ∧
      bodyOf (generate_document now uuidStr uc "character"
          ⟨some sn, some rn, some c, some d, some ad, some p⟩) =
        some ("This is to certify that Mr./Ms. " ++ sn ++ ", Roll No: " ++ rn ++
          ", is a student of " ++ c ++ " program in the Department of " ++ d ++
          ". During his/her stay in this institution, his/her character and conduct have been found to be satisfactory. This certificate is issued for " ++
          p ++ ".") ∧
      bodyOf (generate_document now uuidStr uc "transfer"
          ⟨some sn, some rn, some c, some d, some ad, some p⟩) =
        some ("This is to certify that Mr./Ms. " ++ sn ++ ", Roll No: " ++ rn ++
          ", was a student of this institution from " ++ ad ++ " studying " ++ c ++
          " in the Department of " ++ d ++ ". He/She is now seeking transfer for " ++
          p ++ ". His/Her character and conduct during the stay were satisfactory.") ∧
      bodyOf (generate_document now uuidStr uc "fee_structure"
          ⟨some sn, some rn, some c, some d, some ad, some p⟩) =
        some ("This letter provides the official fee structure for Mr./Ms. " ++ sn ++
          ", Roll No: " ++ rn ++ ", enrolled in " ++ c ++
          " program in the Department of " ++ d ++ ". This information is provided for " ++
          p ++ ". Please contact the finance office for detailed fee breakdown.") ∧
      bodyOf (generate_document now uuidStr uc "transcript"
          ⟨some sn, some rn, some c, some d, some ad, some p⟩) =
        some ("This acknowledges the request for official academic transcripts for Mr./Ms. " ++
          sn ++ ", Roll No: " ++ rn ++ ", enrolled in " ++ c ++
          " program in the Department of " ++ d ++ ". The transcripts are requested for " ++
          p ++ ". Official transcripts will be processed within 5-7 business days.")) ∧
    (∀ (sd : StudentData) (dt : String) (td : DocumentTemplate),
      List.lookup dt document_templates = some td →
      (sd.student_name = none ∨ sd.roll_number = none ∨ sd.course = none ∨
        sd.department = none ∨ sd.admission_date = none ∨ sd.purpose = none) →
      ∃ k, generate_document now uuidStr uc dt sd = Except.error (PyError.keyError k)) := by
  constructor
  · intro sn rn c d ad p
    refine ⟨?_, ?_, ?_, ?_, ?_, ?_⟩
    · rw [generate_document_eq now uuidStr uc "bonafide" u tmplBonafide sn rn c d ad p _
        hu rfl (pyFormat_bonafide ("Mr./Ms. " ++ sn) rn c d ad p)]
      simp [bodyOf, assembleDoc, ← String.append_assoc]
    · rw [generate_document_eq now uuidStr uc "noc" u tmplNoc sn rn c d ad p _
        hu rfl (pyFormat_noc ("Mr./Ms. " ++ sn) rn c d ad p)]
      simp [bodyOf, assembleDoc, ← String.append_assoc]
    · rw [generate_document_eq now uuidStr uc "character" u tmplCharacter sn rn c d ad p _
        hu rfl (pyFormat_character ("Mr./Ms. " ++ sn) rn c d ad p)]
      simp [bodyOf, assembleDoc, ← String.append_assoc]
    · rw [generate_document_eq now uuidStr uc "transfer" u tmplTransfer sn rn c d ad p _
        hu rfl (pyFormat_transfer ("Mr./Ms. " ++ sn) rn c d ad p)]
      simp [bodyOf, assembleDoc, ← String.append_assoc]
    · rw [generate_document_eq now uuidStr uc "fee_structure" u tmplFeeStructure sn rn c d ad p _
        hu rfl (pyFormat_feeStructure ("Mr./Ms. " ++ sn) rn c d ad p)]
      simp [bodyOf, assembleDoc, ← String.append_assoc]
    · rw [generate_document_eq now uuidStr uc "transcript" u tmplTranscript sn rn c d ad p _
        hu rfl (pyFormat_transcript ("Mr./Ms. " ++ sn) rn c d ad p)]
      simp [bodyOf, assembleDoc, ← String.append_assoc]
  · intro sd dt td ht hmiss
    exact generate_document_missing_field now uuidStr uc dt u td sd hu ht hmiss

set_option maxRecDepth 100000 in
/-- Witness for C4 at "harvard": the sample record renders the expected
bonafide body, and the same record without its student name makes
generation fail with a KeyError. -/
theorem compose_substitutes_required_fields_witness :
    bodyOf (generate_document now0 uuid0 "harvard" "bonafide" johnSmith) =
      some "This is to certify that Mr./Ms. John Smith, Roll No: CS2024001, is a bonafide student of this institution. He/She has been studying in this institution since 2023-08-15 in the Bachelor of Science (B.Sc.) program in the Department of Computer Science. This certificate is issued for the purpose of Internship application." ∧
    (∃ k, generate_document now0 uuid0 "harvard" "bonafide" noNameStudent =
      Except.error (PyError.keyError k)) :=
  ⟨((compose_substitutes_required_fields now0 uuid0 "harvard" harvardProfile rfl).1
      "John Smith" "CS2024001" "Bachelor of Science (B.Sc.)" "Computer Science"
      "2023-08-15" "Internship application").1,
   (compose_substitutes_required_fields now0 uuid0 "harvard" harvardProfile rfl).2
      noNameStudent "bonafide" tmplBonafide rfl (Or.inl rfl)⟩

/-- Creating a directory makes it present. -/
theorem makedirs_contains (fs : FS) (d : String) :
    (makedirs fs d).dirs.contains d = true := by
  rw [makedirs]
  split
  next h => exact h
  next h => simp

/-- C6: after a successful save the listing contains an entry whose
filename is the one `generate_and_save` returned; deleting that
filename succeeds and removes the entry from the listing; a second
delete of the same filename answers 404 Document not found. -/
theorem save_list_delete_round_trip (fs : FS) (now : DateTime) (uuidStr : String)
    (sz ct : Nat) (uc dt : String) (u : UniversityProfile) (td : DocumentTemplate)
    (sn rn c d ad p : String)
    (hu : List.lookup uc universities = some u)
    (ht : List.lookup dt document_templates = some td) :
    roundTrip fs now uuidStr sz ct uc dt ⟨some sn, some rn, some c, some d, some ad, some p⟩ := by
  obtain ⟨doc, hgen⟩ := generate_document_ok now uuidStr uc dt u td sn rn c d ad p hu ht
  have hdocx : pyEndsWith (generate_unique_filename now uuidStr dt sn p) ".docx" = true := by
    simp only [generate_unique_filename]
    exact pyEndsWith_append _ _
  refine ⟨{ success := true,
            filename := generate_unique_filename now uuidStr dt sn p,
            file_path := joinPath "generated" (generate_unique_filename now uuidStr dt sn p),
            download_url := "/download/" ++ generate_unique_filename now uuidStr dt sn p,
            message := "Document generated successfully: " ++
              generate_unique_filename now uuidStr dt sn p },
          fsWrite (makedirs fs "generated") "generated"
            (generate_unique_filename now uuidStr dt sn p) ⟨doc, sz, ct⟩,
          ?_, ?_,
          fsRemove (fsWrite (makedirs fs "generated") "generated"
              (generate_unique_filename now uuidStr dt sn p) ⟨doc, sz, ct⟩)
            "generated" (generate_unique_filename now uuidStr dt sn p),
          ?_, ?_, ?_⟩
  · simp [generate_and_save, hgen, save_document]
  · have hdirs : (fsWrite (makedirs fs "generated") "generated"
        (generate_unique_filename now uuidStr dt sn p) ⟨doc, sz, ct⟩).dirs.contains
          "generated" = true := makedirs_contains fs "generated"
    rw [list_documents, if_pos hdirs]
    refine List.mem_map.mpr
      ⟨⟨generate_unique_filename now uuidStr dt sn p, sz, ct,
        "/download/" ++ generate_unique_filename now uuidStr dt sn p⟩, ?_, rfl⟩
    rw [List.mem_insertionSort]
    refine List.mem_map.mpr
      ⟨(("generated", generate_unique_filename now uuidStr dt sn p), ⟨doc, sz, ct⟩), ?_, rfl⟩
    refine List.mem_filter.mpr ⟨List.mem_cons_self _ _, ?_⟩
    simp [hdocx]
  · have hex : fsExists (fsWrite (makedirs fs "generated") "generated"
        (generate_unique_filename now uuidStr dt sn p) ⟨doc, sz, ct⟩)
          "generated" (generate_unique_filename now uuidStr dt sn p) = true := by
      simp [fsExists, fsWrite]
    rw [delete_document, if_pos hex]
  · intro hmem
    obtain ⟨e, he, heq⟩ := List.mem_map.mp hmem
    rw [list_documents] at he
    split at he
    · rw [List.mem_insertionSort] at he
      obtain ⟨f, hf, rfl⟩ := List.mem_map.mp he
      have hf2 := List.mem_filter.mp hf
      have hdir : f.1.1 = "generated" := by
        have := hf2.2
        simp only [Bool.and_eq_true, decide_eq_true_eq] at this
        exact this.1
      have hf3 := List.mem_filter.mp hf2.1
      have hne : f.1 ≠ ("generated", generate_unique_filename now uuidStr dt sn p) := by
        have := hf3.2
        simpa using this
      apply hne
      have : f.1.2 = generate_unique_filename now uuidStr dt sn p := heq
      exact Prod.ext hdir this
    · simp at he
  · have hex2 : fsExists (fsRemove (fsWrite (makedirs fs "generated") "generated"
        (generate_unique_filename now uuidStr dt sn p) ⟨doc, sz, ct⟩)
          "generated" (generate_unique_filename now uuidStr dt sn p))
        "generated" (generate_unique_filename now uuidStr dt sn p) = false := by
      rw [fsExists, List.any_eq_false]
      intro e he
      have := (List.mem_filter.mp he).2
      simpa using this
    rw [delete_document, if_neg (by simp [hex2])]

/-- Witness for C6 at the sample inputs on an empty store. -/
theorem save_list_delete_round_trip_witness :
    roundTrip fs0 now0 uuid0 10 5 "harvard" "bonafide" johnSmith :=
  save_list_delete_round_trip fs0 now0 uuid0 10 5 "harvard" "bonafide"
    harvardProfile tmplBonafide "John Smith" "CS2024001"
    "Bachelor of Science (B.Sc.)" "Computer Science" "2023-08-15"
    "Internship application" rfl rfl

end UniDoc
